import Mathlib

set_option maxHeartbeats 1000000

/-! Verification of the grapevine-mcp tool adapter
    (grapevine_mcp/server.py and grapevine_mcp/staffbase_client.py).

    JSON values exchanged with the upstream API are modelled by the
    inductive type Json; Python dicts are insertion-ordered association
    lists with unique keys, so next(iter(d)) is the first key in the
    list and d.get(k) is the first match. Python expressions that can
    raise are modelled in Except String, the String being str(exc).
    Python strings are Lean Strings (logically lists of code points),
    so s[:n] is a code-point prefix. -/

inductive Json where
  | null : Json
  | bool : Bool → Json
  | num : Int → Json
  | str : String → Json
  | arr : List Json → Json
  | obj : List (String × Json) → Json

/-- Ordered lookup in a Python dict (first match wins; keys are unique). -/
def lookupField : List (String × Json) → String → Option Json
  | [], _ => none
  | (k, v) :: rest, key => if k = key then some v else lookupField rest key

/-- Python truthiness of a JSON-shaped value. -/
def pyTruthy : Json → Bool
  | Json.null => false
  | Json.bool b => b
  | Json.num n => decide (n ≠ 0)
  | Json.str s => decide (s ≠ "")
  | Json.arr l => !l.isEmpty
  | Json.obj f => !f.isEmpty

/-- Truthiness of an optional value (None is falsy). -/
def pyTruthyOpt : Option Json → Bool
  | none => false
  | some j => pyTruthy j

/-- The envelope unwrap used at several call sites of the source:
    return the value under the data key when the response is a dict
    holding one, the response itself otherwise. -/
def unwrapData (d : Json) : Json :=
  match d with
  | Json.obj fields => (lookupField fields "data").getD (Json.obj fields)
  | _ => d

/-- Python string slicing s[:n] for a nonnegative literal bound n:
    the prefix of at most n code points. -/
def pyStrTake (s : String) (n : Nat) : String := String.mk (s.data.take n)

/-- Python list slicing l[:k] for an arbitrary integer bound k
    (a negative bound counts from the end of the list). -/
def pyTake (k : Int) (l : List Json) : List Json :=
  if 0 ≤ k then l.take k.toNat else l.take ((l.length : Int) + k).toNat

/-- x[:n] for a nonnegative literal n: valid on strings and lists,
    a TypeError on every other JSON shape. -/
def pySliceNat (j : Json) (n : Nat) : Except String Json :=
  match j with
  | Json.str s => Except.ok (Json.str (pyStrTake s n))
  | Json.arr l => Except.ok (Json.arr (l.take n))
  | _ => Except.error "TypeError: value is not subscriptable by a slice"

/-- posts[:limit] where limit is the JSON value of the limit argument:
    ints, bools (which are ints in Python) and None are valid slice
    bounds, anything else raises a TypeError. -/
def pySliceTo (l : List Json) (limit : Json) : Except String (List Json) :=
  match limit with
  | Json.num n => Except.ok (pyTake n l)
  | Json.bool b => Except.ok (pyTake (if b then 1 else 0) l)
  | Json.null => Except.ok l
  | _ => Except.error "TypeError: slice indices must be integers or None"

/-- next(iter(x), None): first key of a dict, first element of a list,
    first character of a string; a TypeError on non-iterables. -/
def firstIter : Json → Except String (Option Json)
  | Json.obj [] => Except.ok none
  | Json.obj ((k, _) :: _) => Except.ok (some (Json.str k))
  | Json.arr [] => Except.ok none
  | Json.arr (x :: _) => Except.ok (some x)
  | Json.str s => Except.ok (if s = "" then none else some (Json.str (pyStrTake s 1)))
  | _ => Except.error "TypeError: object is not iterable"

/-- o.get(k, d) for a string key k: an AttributeError when o is not a dict. -/
def pyDictGetStr (o : Json) (k : String) (d : Json) : Except String Json :=
  match o with
  | Json.obj fields => Except.ok ((lookupField fields k).getD d)
  | _ => Except.error "AttributeError: object has no attribute get"

/-- o.get(k, d) with an arbitrary JSON value as key: string keys are
    looked up, other hashable values are never keys of a JSON-derived
    dict so the default is returned, and unhashable values raise. -/
def pyDictGet (o : Json) (k : Json) (d : Json) : Except String Json :=
  match o with
  | Json.obj fields =>
      match k with
      | Json.str s => Except.ok ((lookupField fields s).getD d)
      | Json.arr _ => Except.error "TypeError: unhashable type"
      | Json.obj _ => Except.error "TypeError: unhashable type"
      | _ => Except.ok d
  | _ => Except.error "AttributeError: object has no attribute get"

/-- List-comprehension evaluation order: left to right, the first
    exception aborts the whole comprehension. -/
def mapE (f : α → Except String β) : List α → Except String (List β)
  | [] => Except.ok []
  | a :: as => do
      let b ← f a
      let bs ← mapE f as
      Except.ok (b :: bs)

/-- str(KeyError(k)) is the key wrapped in single quotes. -/
def keyErrorMsg (k : String) : String :=
  String.mk [Char.ofNat 39] ++ k ++ String.mk [Char.ofNat 39]

/-- Process-wide configuration. os.environ.get(name, "") makes an absent
    variable indistinguishable from an empty one, so both are "". -/
structure Config where
  base_url : String
  api_key : String

/-- The RuntimeError message raised by _get_client. -/
def configErrorMsg : String :=
  "STAFFBASE_URL and STAFFBASE_API_KEY environment variables are required."

/-- _get_client: fails when either variable is missing or empty; on
    success the constructed client is fully determined by the
    configuration, so it carries no data here. -/
def get_client (cfg : Config) : Except String Unit :=
  if cfg.base_url = "" ∨ cfg.api_key = "" then Except.error configErrorMsg
  else Except.ok ()

/-- One authenticated GET issued by StaffbaseClient, identified by its
    endpoint and parameters. list_spaces always sends includeHidden=true
    and the dispatch layer always leaves offset at its default 0, so
    neither is a parameter here. Parameter values arriving from the tool
    call are carried as the JSON values the dispatch passes through. -/
inductive UpCall where
  | spaces : UpCall
  | globalPosts : Json → UpCall
  | channelPosts : Json → Json → UpCall
  | page : Json → UpCall
  | searchQ : Json → Json → UpCall
  | spaceNews : Json → UpCall

/-- Upstream behaviour: each GET either yields parsed JSON or raises
    (network failure, timeout, non-2xx status via raise_for_status,
    or a JSON parse failure). -/
def Upstream : Type := UpCall → Except String Json

namespace StaffbaseClient

/-- GET /api/spaces, unwrapping a possible data envelope. The second
    component is the list of upstream calls attempted. -/
def list_spaces (up : Upstream) : Except String Json × List UpCall :=
  ((up UpCall.spaces).map unwrapData, [UpCall.spaces])

/-- GET /api/posts, unwrapping a possible data envelope. -/
def get_global_posts (up : Upstream) (limit : Json) : Except String Json × List UpCall :=
  ((up (UpCall.globalPosts limit)).map unwrapData, [UpCall.globalPosts limit])

/-- GET /api/channels/id/posts: the raw response, not unwrapped. -/
def get_channel_posts (up : Upstream) (channel_id limit : Json) :
    Except String Json × List UpCall :=
  (up (UpCall.channelPosts channel_id limit), [UpCall.channelPosts channel_id limit])

/-- GET /api/pages/id: the raw response. -/
def get_page (up : Upstream) (page_id : Json) : Except String Json × List UpCall :=
  (up (UpCall.page page_id), [UpCall.page page_id])

/-- GET /api/search: the raw response. -/
def search (up : Upstream) (query limit : Json) : Except String Json × List UpCall :=
  (up (UpCall.searchQ query limit), [UpCall.searchQ query limit])

/-- GET /api/spaces/id/news, unwrapping a possible data envelope. -/
def get_space_news (up : Upstream) (space_id : Json) : Except String Json × List UpCall :=
  ((up (UpCall.spaceNews space_id)).map unwrapData, [UpCall.spaceNews space_id])

end StaffbaseClient

/-- One element of the list_spaces comprehension in _handle_tool:
    a dict of the mandatory id and the name defaulting to "". -/
def projectSpace (s : Json) : Except String Json :=
  match s with
  | Json.obj fields =>
      match lookupField fields "id" with
      | some v => Except.ok (Json.obj
          [("id", v), ("name", (lookupField fields "name").getD (Json.str ""))])
      | none => Except.error (keyErrorMsg "id")
  | _ => Except.error "TypeError: element is not a dict"

/-- The get_news loop body in _handle_tool: pick the first available
    locale of the post contents and emit id, title, teaser truncated to
    200 characters, published timestamp and locale. -/
def postEntry (p : Json) : Except String Json :=
  match p with
  | Json.obj pf => do
      let contents := (lookupField pf "contents").getD (Json.obj [])
      let locale ← firstIter contents
      let localized ← if pyTruthyOpt locale then
            pyDictGet contents (locale.getD Json.null) (Json.obj [])
          else Except.ok (Json.obj [])
      let title ← pyDictGetStr localized "title" (Json.str "")
      let teaserRaw ← pyDictGetStr localized "teaser" (Json.str "")
      let teaser ← pySliceNat teaserRaw 200
      Except.ok (Json.obj [
        ("id", (lookupField pf "id").getD (Json.str "")),
        ("title", title),
        ("teaser", teaser),
        ("published", (lookupField pf "publishedAt").getD (Json.str "")),
        ("locale", if pyTruthyOpt locale then locale.getD Json.null else Json.str "")])
  | _ => Except.error "AttributeError: object has no attribute get"

/-- The get_page reshaping in _handle_tool: pick the first available
    locale and emit id, title, content truncated to 5000 characters,
    locale and updated timestamp. -/
def pageResult (page : Json) : Except String Json :=
  match page with
  | Json.obj pf => do
      let contents := (lookupField pf "contents").getD (Json.obj [])
      let locale ← firstIter contents
      let localized ← if pyTruthyOpt locale then
            pyDictGet contents (locale.getD Json.null) (Json.obj [])
          else Except.ok (Json.obj [])
      let title ← pyDictGetStr localized "title" (Json.str "")
      let contentRaw ← pyDictGetStr localized "content" (Json.str "")
      let content ← pySliceNat contentRaw 5000
      Except.ok (Json.obj [
        ("id", (lookupField pf "id").getD (Json.str "")),
        ("title", title),
        ("content", content),
        ("locale", if pyTruthyOpt locale then locale.getD Json.null else Json.str ""),
        ("updated", (lookupField pf "updatedAt").getD (Json.str ""))])
  | _ => Except.error "AttributeError: object has no attribute get"

/-- item.get("type") == "news": only a string equal to "news" compares
    equal under the Python == used by _extract_channels. -/
def isNewsType (fields : List (String × Json)) : Bool :=
  match lookupField fields "type" with
  | some (Json.str t) => decide (t = "news")
  | _ => false

/-- The entry _extract_channels appends for a news node: the name falls
    back from the localized title through the top-level title field to
    "", the installation_id from installationID through id to "". -/
def channelEntry (fields : List (String × Json)) : Except String Json := do
  let contents := (lookupField fields "contents").getD (Json.obj [])
  let locale ← firstIter contents
  let title ← if pyTruthyOpt locale then do
        let localized ← pyDictGet contents (locale.getD Json.null) (Json.obj [])
        pyDictGetStr localized "title" (Json.str "")
      else Except.ok (Json.str "")
  Except.ok (Json.obj [
    ("name", if pyTruthy title then title
             else (lookupField fields "title").getD (Json.str "")),
    ("installation_id", (lookupField fields "installationID").getD
        ((lookupField fields "id").getD (Json.str "")))])

/-- _extract_channels(items, result): recursive walk of the space news
    tree. A node whose type field is the string "news" appends its entry
    to the accumulator, and a truthy children value is recursed into
    independently of that; the order of the two steps puts a node's own
    entry before those of its children.  A truthy non-list children
    value makes the Python walk raise (an AttributeError or TypeError
    depending on the shape) while iterating it. -/
def extract_channels (items : List Json) (result : List Json) :
    Except String (List Json) :=
  match items with
  | [] => Except.ok result
  | item :: rest =>
    match item with
    | Json.obj fields => do
        let r1 ← if isNewsType fields then
              (channelEntry fields).map (fun e => result ++ [e])
            else Except.ok result
        let r2 ← match h : lookupField fields "children" with
          | some (Json.arr cs) =>
              if cs.isEmpty then Except.ok r1 else extract_channels cs r1
          | some other =>
              if pyTruthy other then
                Except.error "TypeError or AttributeError iterating non-list children"
              else Except.ok r1
          | none => Except.ok r1
        extract_channels rest r2
    | _ => Except.error "AttributeError: object has no attribute get"
termination_by sizeOf items
decreasing_by
  · simp
  · have aux : ∀ (f : List (String × Json)) (k : String) (v : Json),
        lookupField f k = some v → sizeOf v < sizeOf f := by
      intro f k v hf
      induction f with
      | nil => simp [lookupField] at hf
      | cons p ps ih =>
        obtain ⟨pk, pv⟩ := p
        by_cases hk : pk = k
        · simp only [lookupField, if_pos hk, Option.some.injEq] at hf
          cases hf
          simp
          omega
        · simp only [lookupField, if_neg hk] at hf
          have := ih hf
          simp
          omega
    have hcs := aux fields "children" (Json.arr cs) h
    simp at hcs ⊢
    omega

/-- The list_spaces branch of _handle_tool applied to the fetched
    spaces value: project every element to its id and defaulted name.
    The source iterates Python values here and at two further places
    (the posts list, the news tree); iterating a non-list there either
    produces string elements (dict keys, characters) whose field access
    raises, or raises a TypeError outright, except that iterating an
    empty dict or string yields an empty result. -/
def list_spaces_result (r : Except String Json) : Except String Json :=
  match r with
  | Except.error e => Except.error e
  | Except.ok spaces =>
    match spaces with
    | Json.arr l => (mapE projectSpace l).map Json.arr
    | Json.obj [] => Except.ok (Json.arr [])
    | Json.str "" => Except.ok (Json.arr [])
    | Json.obj _ => Except.error "TypeError: string indices must be integers"
    | Json.str _ => Except.error "TypeError: string indices must be integers"
    | _ => Except.error "TypeError: object is not iterable"

/-- The get_news branch of _handle_tool applied to the fetched posts
    value: slice to the limit when the value is a list (an empty result
    otherwise) and reshape every remaining post. -/
def get_news_result (r : Except String Json) (limit : Json) : Except String Json :=
  match r with
  | Except.error e => Except.error e
  | Except.ok posts =>
    match posts with
    | Json.arr l =>
      match pySliceTo l limit with
      | Except.error e => Except.error e
      | Except.ok l2 => (mapE postEntry l2).map Json.arr
    | _ => Except.ok (Json.arr [])

/-- The list_channels branch of _handle_tool applied to the fetched
    news tree: run the recursive extraction on a list value. -/
def list_channels_result (r : Except String Json) : Except String Json :=
  match r with
  | Except.error e => Except.error e
  | Except.ok news =>
    match news with
    | Json.arr items => (extract_channels items []).map Json.arr
    | Json.obj [] => Except.ok (Json.arr [])
    | Json.str "" => Except.ok (Json.arr [])
    | Json.obj _ => Except.error "AttributeError: object has no attribute get"
    | Json.str _ => Except.error "AttributeError: object has no attribute get"
    | _ => Except.error "TypeError: object is not iterable"

/-- The get_page branch of _handle_tool applied to the fetched page. -/
def get_page_result (r : Except String Json) : Except String Json :=
  match r with
  | Except.error e => Except.error e
  | Except.ok page => pageResult page

/-- _handle_tool(name, arguments): resolve credentials, then branch on
    the tool name.  The first component is the reshaped JSON result or
    the raised exception, the second the upstream GETs attempted. -/
def handle_tool (cfg : Config) (up : Upstream) (name : String)
    (arguments : List (String × Json)) : Except String Json × List UpCall :=
  match get_client cfg with
  | Except.error e => (Except.error e, [])
  | Except.ok _ =>
    if name = "list_spaces" then
      let (r, t) := StaffbaseClient.list_spaces up
      (list_spaces_result r, t)
    else if name = "get_news" then
      let channel_id := lookupField arguments "channel_id"
      let limit := (lookupField arguments "limit").getD (Json.num 10)
      let (postsR, t) :=
        if pyTruthyOpt channel_id then
          let (r, t) := StaffbaseClient.get_channel_posts up (channel_id.getD Json.null) limit
          (r.map unwrapData, t)
        else
          StaffbaseClient.get_global_posts up limit
      (get_news_result postsR limit, t)
    else if name = "list_channels" then
      match lookupField arguments "space_id" with
      | none => (Except.error (keyErrorMsg "space_id"), [])
      | some space_id =>
        let (r, t) := StaffbaseClient.get_space_news up space_id
        (list_channels_result r, t)
    else if name = "get_page" then
      match lookupField arguments "page_id" with
      | none => (Except.error (keyErrorMsg "page_id"), [])
      | some page_id =>
        let (r, t) := StaffbaseClient.get_page up page_id
        (get_page_result r, t)
    else if name = "search" then
      match lookupField arguments "query" with
      | none => (Except.error (keyErrorMsg "query"), [])
      | some query =>
        let limit := (lookupField arguments "limit").getD (Json.num 10)
        StaffbaseClient.search up query limit
    else
      (Except.ok (Json.obj [("error", Json.str ("Unknown tool: " ++ name))]), [])

/-- call_tool: the catch-all boundary around _handle_tool.  A payload
    text is represented by its parsed JSON value (json.dumps itself is
    abstracted away); the returned list is the list of content items,
    always a single text item. -/
def call_tool (cfg : Config) (up : Upstream) (name : String)
    (arguments : List (String × Json)) : List Json × List UpCall :=
  match handle_tool cfg up name arguments with
  | (Except.ok j, t) => ([j], t)
  | (Except.error e, t) => ([Json.obj [("error", Json.str e)]], t)

/-- Well-formed channel-tree nodes, the inputs claim C2 ranges over: a
    node is a JSON object given by its non-children fields together
    with a list of child nodes. -/
inductive CNode where
  | mk : List (String × Json) → List CNode → CNode

mutual

/-- The JSON object a channel-tree node stands for: its fields plus a
    children entry holding the rendered child nodes. -/
def CNode.toJson : CNode → Json
  | CNode.mk f cs => Json.obj (f ++ [("children", Json.arr (CNode.listToJson cs))])

/-- Render a forest of channel-tree nodes. -/
def CNode.listToJson : List CNode → List Json
  | [] => []
  | c :: cs => CNode.toJson c :: CNode.listToJson cs

end

mutual

/-- A channel-tree node is well formed when its own fields do not
    themselves contain a children key, its entry computation does not
    raise if it is a news node, and its children are well formed. -/
def CNode.wfb : CNode → Bool
  | CNode.mk f cs =>
      (lookupField f "children").isNone
        && (!(isNewsType f) || (channelEntry f).toOption.isSome)
        && CNode.wfbList cs

/-- Well-formedness of a forest of channel-tree nodes. -/
def CNode.wfbList : List CNode → Bool
  | [] => true
  | c :: cs => CNode.wfb c && CNode.wfbList cs

end

mutual

/-- The list claim C2 says list_channels returns, written from the
    spec: exactly one entry for each node whose type field is "news",
    collected depth first, a node's own entry before the entries of
    its children, a news node with children contributing its entry
    once and then its children independently. -/
def newsEntries : CNode → List Json
  | CNode.mk f cs =>
      (if isNewsType f then
        match channelEntry f with
        | Except.ok e => [e]
        | Except.error _ => []
      else []) ++ newsEntriesList cs

/-- Depth-first news collection over a forest, written from the spec. -/
def newsEntriesList : List CNode → List Json
  | [] => []
  | c :: cs => newsEntries c ++ newsEntriesList cs

end

theorem bindE_ok (a : A) (f : A → Except String B) :
    (Except.ok a : Except String A) >>= f = f a := rfl

theorem bindE_error (e : String) (f : A → Except String B) :
    (Except.error e : Except String A) >>= f = Except.error e := rfl

theorem mapEx_ok (f : A → B) (a : A) :
    Except.map f (Except.ok a : Except String A) = Except.ok (f a) := rfl

theorem mapEx_error (f : A → B) (e : String) :
    Except.map f (Except.error e : Except String A) = Except.error e := rfl

theorem lookupField_append_ne (k k0 : String) (h : k ≠ k0)
    (f : List (String × Json)) (w : Json) :
    lookupField (f ++ [(k0, w)]) k = lookupField f k := by
  induction f with
  | nil =>
    have hne : ¬(k0 = k) := fun hc => h hc.symm
    simp [lookupField, hne]
  | cons p ps ih =>
    obtain ⟨pk, pv⟩ := p
    by_cases hk : pk = k
    · simp [lookupField, hk]
    · simp [lookupField, hk, ih]

theorem lookupField_append_found (k0 : String) (w : Json)
    (f : List (String × Json)) (h : lookupField f k0 = none) :
    lookupField (f ++ [(k0, w)]) k0 = some w := by
  induction f with
  | nil => simp [lookupField]
  | cons p ps ih =>
    obtain ⟨pk, pv⟩ := p
    by_cases hk : pk = k0
    · simp [lookupField, hk] at h
    · simp [lookupField, hk] at h ⊢
      exact ih h

theorem isNewsType_append (f : List (String × Json)) (w : Json) :
    isNewsType (f ++ [("children", w)]) = isNewsType f := by
  simp [isNewsType, lookupField_append_ne "type" "children" (by decide)]

theorem channelEntry_append (f : List (String × Json)) (w : Json) :
    channelEntry (f ++ [("children", w)]) = channelEntry f := by
  simp only [channelEntry,
    lookupField_append_ne "contents" "children" (by decide),
    lookupField_append_ne "title" "children" (by decide),
    lookupField_append_ne "installationID" "children" (by decide),
    lookupField_append_ne "id" "children" (by decide)]

theorem exceptToOption_isSome (x : Except String A) :
    x.toOption.isSome = true ↔ ∃ a, x = Except.ok a := by
  cases x <;> simp [Except.toOption]

theorem mapE_ok_length (f : A → Except String B) :
    ∀ (l : List A) (l2 : List B), mapE f l = Except.ok l2 → l2.length = l.length := by
  intro l
  induction l with
  | nil => intro l2 h; simp [mapE] at h; simp [← h]
  | cons a as ih =>
    intro l2 h
    simp only [mapE] at h
    cases hfa : f a with
    | error e => rw [hfa] at h; simp [bindE_error] at h
    | ok b =>
      rw [hfa, bindE_ok] at h
      cases hrest : mapE f as with
      | error e => rw [hrest] at h; simp [bindE_error] at h
      | ok bs =>
        rw [hrest, bindE_ok] at h
        simp at h
        rw [← h]
        simp [ih bs hrest]

theorem mapE_error_of_mem (f : A → Except String B) :
    ∀ (l : List A) (a : A), a ∈ l → (∀ b, f a ≠ Except.ok b) →
      ∃ m, mapE f l = Except.error m := by
  intro l
  induction l with
  | nil => intro a ha; simp at ha
  | cons x xs ih =>
    intro a ha hfa
    cases hfx : f x with
    | error e => exact ⟨e, by simp [mapE, hfx, bindE_error]⟩
    | ok b =>
      rcases List.mem_cons.mp ha with h1 | h2
      · subst h1; exact absurd hfx (hfa b)
      · obtain ⟨m, hm⟩ := ih a h2 hfa
        exact ⟨m, by simp [mapE, hfx, bindE_ok, hm, bindE_error]⟩

theorem pyStrTake_length (s : String) (n : Nat) :
    (pyStrTake s n).length = min n s.length := by
  cases s with
  | mk data => simp [pyStrTake, String.length]

theorem pyStrTake_of_le (s : String) (n : Nat) (h : s.length ≤ n) :
    pyStrTake s n = s := by
  cases s with
  | mk data =>
    simp [String.length] at h
    simp [pyStrTake, List.take_of_length_le h]

/-- C1: every exception raised during tool dispatch is caught at the
    call_tool boundary and converted into a single text payload whose
    body is the error object carrying str(exception); call_tool always
    returns exactly one payload, never a protocol-level fault. -/
theorem c1_call_tool_catches (cfg : Config) (up : Upstream) (name : String)
    (arguments : List (String × Json)) :
    (∀ e, (handle_tool cfg up name arguments).1 = Except.error e →
      (call_tool cfg up name arguments).1 = [Json.obj [("error", Json.str e)]]) ∧
    ∃ payload, (call_tool cfg up name arguments).1 = [payload] := by
  constructor
  · intro e he
    rcases hh : handle_tool cfg up name arguments with ⟨r, t⟩
    rw [hh] at he
    cases r with
    | ok j => simp at he
    | error e2 =>
      simp at he
      subst he
      simp [call_tool, hh]
  · rcases hh : handle_tool cfg up name arguments with ⟨r, t⟩
    cases r with
    | ok j => exact ⟨j, by simp [call_tool, hh]⟩
    | error e => exact ⟨Json.obj [("error", Json.str e)], by simp [call_tool, hh]⟩

/-- Witness for C1 at a concrete input: the configuration error raised
    inside dispatch comes back as the error payload. -/
theorem c1_witness :
    (call_tool ⟨"", ""⟩ (fun _ => Except.error "net down") "get_news" []).1 =
      [Json.obj [("error", Json.str configErrorMsg)]] :=
  (c1_call_tool_catches ⟨"", ""⟩ (fun _ => Except.error "net down") "get_news" []).1
    configErrorMsg rfl

/-- C4: with either configuration value missing or empty, every tool
    call returns the configuration error payload, whose message contains
    both variable names, and attempts no upstream call. -/
theorem c4_missing_config (cfg : Config) (up : Upstream) (name : String)
    (arguments : List (String × Json))
    (h : cfg.base_url = "" ∨ cfg.api_key = "") :
    call_tool cfg up name arguments = ([Json.obj [("error", Json.str configErrorMsg)]], []) ∧
    ∃ a b c : String, configErrorMsg = a ++ "STAFFBASE_URL" ++ b ++ "STAFFBASE_API_KEY" ++ c := by
  constructor
  · have hc : get_client cfg = Except.error configErrorMsg := by
      unfold get_client
      rw [if_pos h]
    simp [call_tool, handle_tool, hc]
  · exact ⟨"", " and ", " environment variables are required.", rfl⟩

/-- Witness for C4 at a concrete input. -/
theorem c4_witness :
    call_tool ⟨"", "key"⟩ (fun _ => Except.error "net down") "list_spaces" [] =
      ([Json.obj [("error", Json.str configErrorMsg)]], []) :=
  (c4_missing_config ⟨"", "key"⟩ (fun _ => Except.error "net down") "list_spaces" []
    (Or.inl rfl)).1

/-- Counterexample to C3 as stated: with the configuration missing, an
    unknown tool name does not produce the unknown-tool payload (the
    credential check in _handle_tool runs before the name dispatch), so
    the claim fails without a configuration hypothesis.  No upstream
    call is attempted either way. -/
theorem c3_counterexample :
    (call_tool ⟨"", ""⟩ (fun _ => Except.error "net down") "frobnicate" []).1 ≠
      [Json.obj [("error", Json.str "Unknown tool: frobnicate")]] ∧
    call_tool ⟨"", ""⟩ (fun _ => Except.error "net down") "frobnicate" [] =
      ([Json.obj [("error", Json.str configErrorMsg)]], []) := by
  constructor
  · intro hcontra
    have h1 : (call_tool ⟨"", ""⟩ (fun _ => Except.error "net down") "frobnicate" []).1 =
        [Json.obj [("error", Json.str configErrorMsg)]] := rfl
    rw [h1] at hcontra
    simp [configErrorMsg] at hcontra
  · rfl

/-- C3 amended: provided both configuration values are non-empty, a tool
    name outside the five-tool catalog yields the unknown-tool payload
    and no upstream HTTP call. -/
theorem c3_unknown_tool (cfg : Config) (up : Upstream) (name : String)
    (arguments : List (String × Json))
    (hb : cfg.base_url ≠ "") (hk : cfg.api_key ≠ "")
    (h1 : name ≠ "list_spaces") (h2 : name ≠ "get_news") (h3 : name ≠ "list_channels")
    (h4 : name ≠ "get_page") (h5 : name ≠ "search") :
    call_tool cfg up name arguments =
      ([Json.obj [("error", Json.str ("Unknown tool: " ++ name))]], []) := by
  have hc : get_client cfg = Except.ok () := by
    unfold get_client
    rw [if_neg]
    push_neg
    exact ⟨hb, hk⟩
  simp [call_tool, handle_tool, hc, h1, h2, h3, h4, h5]

/-- Witness for the amended C3 at a concrete input. -/
theorem c3_witness :
    call_tool ⟨"url", "key"⟩ (fun _ => Except.error "net down") "frobnicate" [] =
      ([Json.obj [("error", Json.str ("Unknown tool: " ++ "frobnicate"))]], []) :=
  c3_unknown_tool ⟨"url", "key"⟩ (fun _ => Except.error "net down") "frobnicate" []
    (by decide) (by decide) (by decide) (by decide) (by decide) (by decide) (by decide)

/-- C8: the concrete get_page example of the spec, together with the
    empty-contents case in which the representative locale degrades to
    the empty string. -/
theorem c8_get_page_example :
    (handle_tool ⟨"url", "key"⟩ (fun _ => Except.ok (Json.obj [("id", Json.str "42"),
        ("contents", Json.obj [("en", Json.obj [("title", Json.str "Hi"),
          ("content", Json.str "Body")])]),
        ("updatedAt", Json.str "2024-01-01")])) "get_page" [("page_id", Json.str "42")]).1 =
      Except.ok (Json.obj [("id", Json.str "42"), ("title", Json.str "Hi"),
        ("content", Json.str "Body"), ("locale", Json.str "en"),
        ("updated", Json.str "2024-01-01")]) ∧
    ∀ pf, lookupField pf "contents" = some (Json.obj []) →
      pageResult (Json.obj pf) = Except.ok (Json.obj [
        ("id", (lookupField pf "id").getD (Json.str "")),
        ("title", Json.str ""), ("content", Json.str (pyStrTake "" 5000)),
        ("locale", Json.str ""),
        ("updated", (lookupField pf "updatedAt").getD (Json.str ""))]) := by
  constructor
  · rfl
  · intro pf hpf
    simp [pageResult, hpf, firstIter, pyTruthyOpt, bindE_ok, pyDictGetStr,
      lookupField, pySliceNat]

/-- Witness for C8 at concrete inputs. -/
theorem c8_witness :
    (handle_tool ⟨"url", "key"⟩ (fun _ => Except.ok (Json.obj [("id", Json.str "42"),
        ("contents", Json.obj [("en", Json.obj [("title", Json.str "Hi"),
          ("content", Json.str "Body")])]),
        ("updatedAt", Json.str "2024-01-01")])) "get_page" [("page_id", Json.str "42")]).1 =
      Except.ok (Json.obj [("id", Json.str "42"), ("title", Json.str "Hi"),
        ("content", Json.str "Body"), ("locale", Json.str "en"),
        ("updated", Json.str "2024-01-01")]) ∧
    pageResult (Json.obj [("contents", Json.obj [])]) = Except.ok (Json.obj [
      ("id", Json.str ""), ("title", Json.str ""), ("content", Json.str (pyStrTake "" 5000)),
      ("locale", Json.str ""), ("updated", Json.str "")]) :=
  ⟨c8_get_page_example.1, c8_get_page_example.2 [("contents", Json.obj [])] rfl⟩

/-- Reduction of the get_news dispatch when a truthy channel_id argument
    is present: the per-channel endpoint is the one called. -/
theorem get_news_trace_channel (cfg : Config) (up : Upstream)
    (args : List (String × Json)) (cidv : Json)
    (hc : get_client cfg = Except.ok ())
    (hcid : lookupField args "channel_id" = some cidv)
    (ht : pyTruthy cidv = true) :
    handle_tool cfg up "get_news" args =
      (get_news_result
        ((up (UpCall.channelPosts cidv ((lookupField args "limit").getD (Json.num 10)))).map unwrapData)
        ((lookupField args "limit").getD (Json.num 10)),
       [UpCall.channelPosts cidv ((lookupField args "limit").getD (Json.num 10))]) := by
  simp [handle_tool, hc, hcid, pyTruthyOpt, ht, StaffbaseClient.get_channel_posts]

/-- Reduction of the get_news dispatch when the channel_id argument is
    absent or falsy: the global-posts endpoint is the one called. -/
theorem get_news_trace_global (cfg : Config) (up : Upstream)
    (args : List (String × Json))
    (hc : get_client cfg = Except.ok ())
    (hcid : pyTruthyOpt (lookupField args "channel_id") = false) :
    handle_tool cfg up "get_news" args =
      (get_news_result
        ((up (UpCall.globalPosts ((lookupField args "limit").getD (Json.num 10)))).map unwrapData)
        ((lookupField args "limit").getD (Json.num 10)),
       [UpCall.globalPosts ((lookupField args "limit").getD (Json.num 10))]) := by
  simp [handle_tool, hc, hcid, StaffbaseClient.get_global_posts]

/-- C5: with a present non-empty string channel_id, get_news calls the
    per-channel endpoint, and a data-enveloped upstream response gives
    the same tool output as a bare-list response of the same list; with
    channel_id absent or empty, the global-posts endpoint is called
    instead. -/
theorem c5_get_news_channel (cfg : Config) (up1 up2 : Upstream)
    (args : List (String × Json)) (s : String)
    (fields : List (String × Json)) (l : List Json)
    (hb : cfg.base_url ≠ "") (hk : cfg.api_key ≠ "")
    (hcid : lookupField args "channel_id" = some (Json.str s)) (hs : s ≠ "") :
    (handle_tool cfg up1 "get_news" args).2 =
      [UpCall.channelPosts (Json.str s) ((lookupField args "limit").getD (Json.num 10))] ∧
    (up1 (UpCall.channelPosts (Json.str s) ((lookupField args "limit").getD (Json.num 10))) =
        Except.ok (Json.obj fields) →
     lookupField fields "data" = some (Json.arr l) →
     up2 (UpCall.channelPosts (Json.str s) ((lookupField args "limit").getD (Json.num 10))) =
        Except.ok (Json.arr l) →
     handle_tool cfg up1 "get_news" args = handle_tool cfg up2 "get_news" args) ∧
    (∀ args2, (lookupField args2 "channel_id" = none ∨
               lookupField args2 "channel_id" = some (Json.str "")) →
      (handle_tool cfg up1 "get_news" args2).2 =
        [UpCall.globalPosts ((lookupField args2 "limit").getD (Json.num 10))]) := by
  have hc : get_client cfg = Except.ok () := by
    unfold get_client
    rw [if_neg]
    push_neg
    exact ⟨hb, hk⟩
  have ht : pyTruthy (Json.str s) = true := by simp [pyTruthy, hs]
  refine ⟨?_, ?_, ?_⟩
  · rw [get_news_trace_channel cfg up1 args (Json.str s) hc hcid ht]
  · intro h1 h2 h3
    rw [get_news_trace_channel cfg up1 args (Json.str s) hc hcid ht,
        get_news_trace_channel cfg up2 args (Json.str s) hc hcid ht, h1, h3]
    simp [mapEx_ok, unwrapData, h2]
  · intro args2 hargs2
    have hfalse : pyTruthyOpt (lookupField args2 "channel_id") = false := by
      rcases hargs2 with h | h <;> simp [h, pyTruthyOpt, pyTruthy]
    rw [get_news_trace_global cfg up1 args2 hc hfalse]

/-- Witness for C5 at concrete inputs: a data-enveloped and a bare-list
    per-channel response produce identical outputs, and the endpoints
    called are as claimed. -/
theorem c5_witness :
    (handle_tool ⟨"u", "k"⟩ (fun _ => Except.ok (Json.obj [("data", Json.arr [])]))
        "get_news" [("channel_id", Json.str "abc")]).2 =
      [UpCall.channelPosts (Json.str "abc") (Json.num 10)] ∧
    handle_tool ⟨"u", "k"⟩ (fun _ => Except.ok (Json.obj [("data", Json.arr [])]))
        "get_news" [("channel_id", Json.str "abc")] =
      handle_tool ⟨"u", "k"⟩ (fun _ => Except.ok (Json.arr []))
        "get_news" [("channel_id", Json.str "abc")] ∧
    (handle_tool ⟨"u", "k"⟩ (fun _ => Except.ok (Json.obj [("data", Json.arr [])]))
        "get_news" []).2 = [UpCall.globalPosts (Json.num 10)] := by
  have h := c5_get_news_channel ⟨"u", "k"⟩
    (fun _ => Except.ok (Json.obj [("data", Json.arr [])]))
    (fun _ => Except.ok (Json.arr []))
    [("channel_id", Json.str "abc")] "abc" [("data", Json.arr [])] []
    (by decide) (by decide) rfl (by decide)
  exact ⟨h.1, h.2.1 rfl rfl rfl, h.2.2 [] (Or.inl rfl)⟩

/-- Counterexample to C6 as stated: a negative integer limit is passed
    through to Python list slicing, which counts from the end, so the
    returned result list (here of length 1) is not bounded by the limit
    (here -1); the claim needs the limit to be nonnegative. -/
theorem c6_counterexample :
    (handle_tool ⟨"u", "k"⟩ (fun _ => Except.ok (Json.arr [Json.obj [], Json.obj []]))
        "get_news" [("limit", Json.num (-1))]).1 =
      Except.ok (Json.arr [Json.obj [("id", Json.str ""), ("title", Json.str ""),
        ("teaser", Json.str ""), ("published", Json.str ""), ("locale", Json.str "")]]) ∧
    ¬((1 : Int) ≤ -1) :=
  ⟨rfl, by decide⟩

/-- C6 amended: without a channel_id the global-posts endpoint is called
    with the given limit (default 10); whenever the limit is a
    nonnegative integer, any returned result list has length at most
    the limit; a non-list upstream result yields an empty result list
    rather than a failure. -/
theorem c6_get_news_global (cfg : Config) (up : Upstream)
    (args : List (String × Json)) (n : Int)
    (hb : cfg.base_url ≠ "") (hk : cfg.api_key ≠ "")
    (hcid : lookupField args "channel_id" = none)
    (hlim : lookupField args "limit" = some (Json.num n) ∨
            (lookupField args "limit" = none ∧ n = 10)) :
    (handle_tool cfg up "get_news" args).2 = [UpCall.globalPosts (Json.num n)] ∧
    (0 ≤ n → ∀ l l2, up (UpCall.globalPosts (Json.num n)) = Except.ok (Json.arr l) →
      (handle_tool cfg up "get_news" args).1 = Except.ok (Json.arr l2) →
      (l2.length : Int) ≤ n) ∧
    (∀ j, up (UpCall.globalPosts (Json.num n)) = Except.ok j →
      (∀ l0, unwrapData j ≠ Json.arr l0) →
      (handle_tool cfg up "get_news" args).1 = Except.ok (Json.arr [])) := by
  have hc : get_client cfg = Except.ok () := by
    unfold get_client
    rw [if_neg]
    push_neg
    exact ⟨hb, hk⟩
  have hfalse : pyTruthyOpt (lookupField args "channel_id") = false := by
    simp [hcid, pyTruthyOpt]
  have hlimJ : (lookupField args "limit").getD (Json.num 10) = Json.num n := by
    rcases hlim with h | ⟨h, hn⟩
    · simp [h]
    · simp [h, hn]
  have hred := get_news_trace_global cfg up args hc hfalse
  rw [hlimJ] at hred
  refine ⟨?_, ?_, ?_⟩
  · rw [hred]
  · intro hn l l2 hu hres
    rw [hred] at hres
    simp only [hu, mapEx_ok] at hres
    simp only [get_news_result, unwrapData, pySliceTo] at hres
    cases hm : mapE postEntry (pyTake n l) with
    | error e => rw [hm] at hres; simp [mapEx_error] at hres
    | ok lr =>
      rw [hm] at hres
      simp [mapEx_ok] at hres
      have hlen := mapE_ok_length postEntry (pyTake n l) lr hm
      have htake : (pyTake n l).length ≤ n.toNat := by
        simp [pyTake, hn, List.length_take]
      have hcast := Int.toNat_of_nonneg hn
      subst hres
      omega
  · intro j hu hnl
    rw [hred]
    simp only [hu, mapEx_ok]
    cases hw : unwrapData j with
    | arr l0 => exact absurd hw (hnl l0)
    | null => simp [get_news_result, hw]
    | bool b => simp [get_news_result, hw]
    | num m => simp [get_news_result, hw]
    | str s => simp [get_news_result, hw]
    | obj f => simp [get_news_result, hw]

/-- Witness for the amended C6 at a concrete input: three upstream
    posts, default limit 10, three entries returned, and 3 is at most
    10. -/
theorem c6_witness :
    ((3 : Nat) : Int) ≤ 10 ∧
    (handle_tool ⟨"u", "k"⟩
        (fun _ => Except.ok (Json.arr [Json.obj [], Json.obj [], Json.obj []]))
        "get_news" []).2 = [UpCall.globalPosts (Json.num 10)] := by
  have h := c6_get_news_global ⟨"u", "k"⟩
    (fun _ => Except.ok (Json.arr [Json.obj [], Json.obj [], Json.obj []])) [] 10
    (by decide) (by decide) rfl (Or.inr ⟨rfl, rfl⟩)
  refine ⟨?_, h.1⟩
  exact h.2.1 (by decide) [Json.obj [], Json.obj [], Json.obj []]
    [Json.obj [("id", Json.str ""), ("title", Json.str ""), ("teaser", Json.str ""),
      ("published", Json.str ""), ("locale", Json.str "")],
     Json.obj [("id", Json.str ""), ("title", Json.str ""), ("teaser", Json.str ""),
      ("published", Json.str ""), ("locale", Json.str "")],
     Json.obj [("id", Json.str ""), ("title", Json.str ""), ("teaser", Json.str ""),
      ("published", Json.str ""), ("locale", Json.str "")]] rfl rfl

/-- C7: a teaser is truncated to 200 code points in get_news output and
    page content to 5000 in get_page output; a 500-character teaser
    comes out exactly 200 long, a 10000-character content exactly 5000
    long, and shorter values are unchanged. -/
theorem c7_truncation (cfg : Config) (up1 up2 : Upstream) (s t : String) (pid : Json)
    (hb : cfg.base_url ≠ "") (hk : cfg.api_key ≠ "")
    (hnews : up1 (UpCall.globalPosts (Json.num 10)) = Except.ok (Json.arr
      [Json.obj [("contents", Json.obj [("en", Json.obj [("teaser", Json.str s)])])]]))
    (hpage : up2 (UpCall.page pid) = Except.ok (Json.obj
      [("contents", Json.obj [("en", Json.obj [("content", Json.str t)])])])) :
    (handle_tool cfg up1 "get_news" []).1 = Except.ok (Json.arr [Json.obj
      [("id", Json.str ""), ("title", Json.str ""), ("teaser", Json.str (pyStrTake s 200)),
       ("published", Json.str ""), ("locale", Json.str "en")]]) ∧
    (handle_tool cfg up2 "get_page" [("page_id", pid)]).1 = Except.ok (Json.obj
      [("id", Json.str ""), ("title", Json.str ""), ("content", Json.str (pyStrTake t 5000)),
       ("locale", Json.str "en"), ("updated", Json.str "")]) ∧
    (s.length = 500 → (pyStrTake s 200).length = 200) ∧
    (t.length = 10000 → (pyStrTake t 5000).length = 5000) ∧
    (s.length ≤ 200 → pyStrTake s 200 = s) ∧
    (t.length ≤ 5000 → pyStrTake t 5000 = t) := by
  have hc : get_client cfg = Except.ok () := by
    unfold get_client
    rw [if_neg]
    push_neg
    exact ⟨hb, hk⟩
  refine ⟨?_, ?_, ?_, ?_, ?_, ?_⟩
  · have hred := get_news_trace_global cfg up1 [] hc (by simp [lookupField, pyTruthyOpt])
    rw [hred]
    simp [lookupField, hnews, mapEx_ok, unwrapData, get_news_result, pySliceTo, pyTake,
      postEntry, firstIter, pyTruthyOpt, pyTruthy, pyDictGet, pyDictGetStr, pySliceNat,
      bindE_ok, mapE]
  · simp [handle_tool, hc, lookupField, StaffbaseClient.get_page, hpage, get_page_result,
      pageResult, firstIter, pyTruthyOpt, pyTruthy, pyDictGet, pyDictGetStr, pySliceNat,
      bindE_ok]
  · intro h
    rw [pyStrTake_length, h]
    omega
  · intro h
    rw [pyStrTake_length, h]
    omega
  · exact pyStrTake_of_le s 200
  · exact pyStrTake_of_le t 5000

/-- Witness for C7 at concrete inputs: a 500-character teaser truncates
    to exactly 200 characters, a 10000-character content to exactly
    5000. -/
theorem c7_witness :
    (pyStrTake (String.mk (List.replicate 500 (Char.ofNat 97))) 200).length = 200 ∧
    (pyStrTake (String.mk (List.replicate 10000 (Char.ofNat 98))) 5000).length = 5000 := by
  have h := c7_truncation ⟨"u", "k"⟩
    (fun _ => Except.ok (Json.arr [Json.obj [("contents", Json.obj [("en", Json.obj
      [("teaser", Json.str (String.mk (List.replicate 500 (Char.ofNat 97))))])])]]))
    (fun _ => Except.ok (Json.obj [("contents", Json.obj [("en", Json.obj
      [("content", Json.str (String.mk (List.replicate 10000 (Char.ofNat 98))))])])]))
    (String.mk (List.replicate 500 (Char.ofNat 97)))
    (String.mk (List.replicate 10000 (Char.ofNat 98)))
    (Json.str "42") (by decide) (by decide) rfl rfl
  refine ⟨h.2.2.1 ?_, h.2.2.2.1 ?_⟩
  · exact List.length_replicate 500 (Char.ofNat 97)
  · exact List.length_replicate 10000 (Char.ofNat 98)

/-- Counterexample to C9 as stated: a news node whose contents mapping
    has the empty string as its first locale key.  The first-locale
    content object exists and carries the non-empty title "X", yet the
    emitted name is the top-level title "Y": the code treats a falsy
    (empty-string) locale as no locale at all, so the localized title
    is skipped rather than used first. -/
theorem c9_counterexample :
    channelEntry [("type", Json.str "news"),
      ("contents", Json.obj [("", Json.obj [("title", Json.str "X")])]),
      ("title", Json.str "Y")] =
      Except.ok (Json.obj [("name", Json.str "Y"), ("installation_id", Json.str "")]) ∧
    Json.str "Y" ≠ Json.str "X" :=
  ⟨rfl, by simp⟩

/-- Inversion of a successful bind: both stages succeeded. -/
theorem bindE_ok_inv (x : Except String A) (f : A → Except String B) (b : B)
    (h : x >>= f = Except.ok b) : ∃ a, x = Except.ok a ∧ f a = Except.ok b := by
  cases x with
  | error e => simp [bindE_error] at h
  | ok a =>
    rw [bindE_ok] at h
    exact ⟨a, rfl, h⟩

/-- Every entry channelEntry successfully emits, for any node whatever
    its contents, carries as installation_id the installationID field,
    falling back to the id field and then to the empty string. -/
theorem channelEntry_installation_id (fields : List (String × Json)) (e : Json)
    (h : channelEntry fields = Except.ok e) :
    ∃ nm, e = Json.obj [("name", nm),
      ("installation_id", (lookupField fields "installationID").getD
        ((lookupField fields "id").getD (Json.str "")))] := by
  simp only [channelEntry] at h
  obtain ⟨locale, h1, h2⟩ := bindE_ok_inv _ _ _ h
  by_cases hpt : pyTruthyOpt locale = true
  · rw [if_pos hpt] at h2
    obtain ⟨localized, h3, h4⟩ := bindE_ok_inv _ _ _ h2
    obtain ⟨title, h5, h6⟩ := bindE_ok_inv _ _ _ h4
    simp only [Except.ok.injEq] at h6
    exact ⟨_, h6.symm⟩
  · rw [if_neg hpt] at h2
    rw [bindE_ok] at h2
    simp only [Except.ok.injEq] at h2
    exact ⟨_, h2.symm⟩

/-- C9 amended: for every news node, the emitted installation_id falls
    back from the installationID field to the id field to the empty
    string, whatever the contents mapping (first conjunct, with the
    three chain steps spelled out next); and when the first locale key
    is non-empty the emitted name falls back from a non-empty localized
    title to the top-level title value to the empty string, an empty or
    absent localized title and an absent top-level title each taking
    the next step (an empty-string first locale is falsy and is treated
    as no locale, as is a missing contents mapping, both skipping the
    localized level). -/
theorem c9_fallbacks :
    (∀ fields e, channelEntry fields = Except.ok e →
      ∃ nm, e = Json.obj [("name", nm),
        ("installation_id", (lookupField fields "installationID").getD
          ((lookupField fields "id").getD (Json.str "")))]) ∧
    (∀ fields v, lookupField fields "installationID" = some v →
      (lookupField fields "installationID").getD
        ((lookupField fields "id").getD (Json.str "")) = v) ∧
    (∀ fields w, lookupField fields "installationID" = none →
      lookupField fields "id" = some w →
      (lookupField fields "installationID").getD
        ((lookupField fields "id").getD (Json.str "")) = w) ∧
    (∀ fields, lookupField fields "installationID" = none →
      lookupField fields "id" = none →
      (lookupField fields "installationID").getD
        ((lookupField fields "id").getD (Json.str "")) = Json.str "") ∧
    (∀ fields loc lf restC t,
      lookupField fields "contents" = some (Json.obj ((loc, Json.obj lf) :: restC)) →
      loc ≠ "" → lookupField lf "title" = some (Json.str t) → t ≠ "" →
      channelEntry fields = Except.ok (Json.obj [("name", Json.str t),
        ("installation_id", (lookupField fields "installationID").getD
          ((lookupField fields "id").getD (Json.str "")))])) ∧
    (∀ fields loc lf restC,
      lookupField fields "contents" = some (Json.obj ((loc, Json.obj lf) :: restC)) →
      loc ≠ "" →
      (lookupField lf "title" = some (Json.str "") ∨ lookupField lf "title" = none) →
      channelEntry fields = Except.ok (Json.obj
        [("name", (lookupField fields "title").getD (Json.str "")),
         ("installation_id", (lookupField fields "installationID").getD
           ((lookupField fields "id").getD (Json.str "")))])) ∧
    (∀ fields loc lf restC,
      lookupField fields "contents" = some (Json.obj ((loc, Json.obj lf) :: restC)) →
      loc ≠ "" →
      (lookupField lf "title" = some (Json.str "") ∨ lookupField lf "title" = none) →
      lookupField fields "title" = none →
      channelEntry fields = Except.ok (Json.obj [("name", Json.str ""),
        ("installation_id", (lookupField fields "installationID").getD
          ((lookupField fields "id").getD (Json.str "")))])) ∧
    (∀ fields, lookupField fields "contents" = none →
      channelEntry fields = Except.ok (Json.obj
        [("name", (lookupField fields "title").getD (Json.str "")),
         ("installation_id", (lookupField fields "installationID").getD
           ((lookupField fields "id").getD (Json.str "")))])) := by
  refine ⟨channelEntry_installation_id, ?_, ?_, ?_, ?_, ?_, ?_, ?_⟩
  · intro fields v h
    simp [h]
  · intro fields w h1 h2
    simp [h1, h2]
  · intro fields h1 h2
    simp [h1, h2]
  · intro fields loc lf restC t hcon hloc htl ht
    simp [channelEntry, hcon, firstIter, pyTruthyOpt, pyTruthy, pyDictGet, pyDictGetStr,
      lookupField, htl, bindE_ok, ht, hloc]
  · intro fields loc lf restC hcon hloc htl
    rcases htl with htl | htl <;>
      simp [channelEntry, hcon, firstIter, pyTruthyOpt, pyTruthy, pyDictGet, pyDictGetStr,
        lookupField, htl, bindE_ok, hloc]
  · intro fields loc lf restC hcon hloc htl htop
    rcases htl with htl | htl <;>
      simp [channelEntry, hcon, firstIter, pyTruthyOpt, pyTruthy, pyDictGet, pyDictGetStr,
        lookupField, htl, htop, bindE_ok, hloc]
  · intro fields hcon
    simp [channelEntry, hcon, firstIter, pyTruthyOpt, pyTruthy, bindE_ok]

/-- Witness for the amended C9 at concrete nodes: a non-empty localized
    title wins and the installationID is emitted; an absent localized
    title falls to the top-level title and the id; an empty localized
    title with no top-level title gives the empty string; a bare node
    degrades to empty strings; and the universal installation_id form
    holds of the first emitted entry. -/
theorem c9_witness :
    channelEntry [("contents", Json.obj [("en", Json.obj [("title", Json.str "Loc")])]),
        ("title", Json.str "Top"), ("installationID", Json.str "I1")] =
      Except.ok (Json.obj [("name", Json.str "Loc"), ("installation_id", Json.str "I1")]) ∧
    channelEntry [("contents", Json.obj [("en", Json.obj [])]),
        ("title", Json.str "Top"), ("id", Json.str "D")] =
      Except.ok (Json.obj [("name", Json.str "Top"), ("installation_id", Json.str "D")]) ∧
    channelEntry [("contents", Json.obj [("en", Json.obj [("title", Json.str "")])])] =
      Except.ok (Json.obj [("name", Json.str ""), ("installation_id", Json.str "")]) ∧
    channelEntry [] =
      Except.ok (Json.obj [("name", Json.str ""), ("installation_id", Json.str "")]) ∧
    (∃ nm, Json.obj [("name", Json.str "Loc"), ("installation_id", Json.str "I1")] =
      Json.obj [("name", nm), ("installation_id", Json.str "I1")]) := by
  have w1 := c9_fallbacks.2.2.2.2.1
    [("contents", Json.obj [("en", Json.obj [("title", Json.str "Loc")])]),
     ("title", Json.str "Top"), ("installationID", Json.str "I1")]
    "en" [("title", Json.str "Loc")] [] "Loc" rfl (by decide) rfl (by decide)
  refine ⟨w1, ?_, ?_, ?_, ?_⟩
  · exact c9_fallbacks.2.2.2.2.2.1
      [("contents", Json.obj [("en", Json.obj [])]),
       ("title", Json.str "Top"), ("id", Json.str "D")]
      "en" [] [] rfl (by decide) (Or.inr rfl)
  · exact c9_fallbacks.2.2.2.2.2.2.1
      [("contents", Json.obj [("en", Json.obj [("title", Json.str "")])])]
      "en" [("title", Json.str "")] [] rfl (by decide) (Or.inl rfl) rfl
  · exact c9_fallbacks.2.2.2.2.2.2.2 [] rfl
  · exact c9_fallbacks.1
      [("contents", Json.obj [("en", Json.obj [("title", Json.str "Loc")])]),
       ("title", Json.str "Top"), ("installationID", Json.str "I1")]
      (Json.obj [("name", Json.str "Loc"), ("installation_id", Json.str "I1")]) w1

/-- All elements of the spaces list that carry an id project cleanly. -/
theorem mapE_projectSpace_ok (fieldss : List (List (String × Json)))
    (h : ∀ f ∈ fieldss, (lookupField f "id").isSome) :
    mapE projectSpace (fieldss.map Json.obj) = Except.ok (fieldss.map fun f => Json.obj
      [("id", (lookupField f "id").getD (Json.str "")),
       ("name", (lookupField f "name").getD (Json.str ""))]) := by
  induction fieldss with
  | nil => simp [mapE]
  | cons f fs ih =>
    have hf := h f (List.mem_cons_self f fs)
    obtain ⟨v, hv⟩ := Option.isSome_iff_exists.mp hf
    have hrest := ih (fun g hg => h g (List.mem_cons_of_mem f hg))
    simp [mapE, projectSpace, hv, bindE_ok, hrest]

/-- C10: list_spaces succeeds exactly when every upstream space object
    carries an id key: then each element is projected with the name
    defaulting to the empty string; an element lacking id turns the
    whole call into an error payload via the caught KeyError. -/
theorem c10_list_spaces (cfg : Config) (up : Upstream) (arguments : List (String × Json))
    (fieldss : List (List (String × Json)))
    (hb : cfg.base_url ≠ "") (hk : cfg.api_key ≠ "")
    (hup : up UpCall.spaces = Except.ok (Json.arr (fieldss.map Json.obj))) :
    ((∀ f ∈ fieldss, (lookupField f "id").isSome) →
      (handle_tool cfg up "list_spaces" arguments).1 =
        Except.ok (Json.arr (fieldss.map fun f => Json.obj
          [("id", (lookupField f "id").getD (Json.str "")),
           ("name", (lookupField f "name").getD (Json.str ""))]))) ∧
    ((∃ f ∈ fieldss, lookupField f "id" = none) →
      ∃ m, (handle_tool cfg up "list_spaces" arguments).1 = Except.error m ∧
        (call_tool cfg up "list_spaces" arguments).1 = [Json.obj [("error", Json.str m)]]) := by
  have hc : get_client cfg = Except.ok () := by
    unfold get_client
    rw [if_neg]
    push_neg
    exact ⟨hb, hk⟩
  constructor
  · intro hall
    simp [handle_tool, hc, StaffbaseClient.list_spaces, hup, mapEx_ok, unwrapData,
      list_spaces_result, mapE_projectSpace_ok fieldss hall]
  · intro ⟨f0, hmem, hnone⟩
    have hfa : ∀ b, projectSpace (Json.obj f0) ≠ Except.ok b := by
      intro b
      simp [projectSpace, hnone]
    obtain ⟨m, hm⟩ := mapE_error_of_mem projectSpace (fieldss.map Json.obj)
      (Json.obj f0) (List.mem_map_of_mem Json.obj hmem) hfa
    refine ⟨m, ?_, ?_⟩
    · simp [handle_tool, hc, StaffbaseClient.list_spaces, hup, mapEx_ok, unwrapData,
        list_spaces_result, hm, mapEx_error]
    · simp [call_tool, handle_tool, hc, StaffbaseClient.list_spaces, hup, mapEx_ok,
        unwrapData, list_spaces_result, hm, mapEx_error]

/-- Witness for C10 at the spec example list plus an id-less element. -/
theorem c10_witness :
    (handle_tool ⟨"u", "k"⟩
      (fun _ => Except.ok (Json.arr [Json.obj [("id", Json.str "1"), ("name", Json.str "HQ")],
        Json.obj [("id", Json.str "2")]])) "list_spaces" []).1 =
      Except.ok (Json.arr [Json.obj [("id", Json.str "1"), ("name", Json.str "HQ")],
        Json.obj [("id", Json.str "2"), ("name", Json.str "")]]) ∧
    (∃ m, (call_tool ⟨"u", "k"⟩
      (fun _ => Except.ok (Json.arr [Json.obj [("name", Json.str "ghost")]]))
      "list_spaces" []).1 = [Json.obj [("error", Json.str m)]]) := by
  have h1 := c10_list_spaces ⟨"u", "k"⟩
    (fun _ => Except.ok (Json.arr [Json.obj [("id", Json.str "1"), ("name", Json.str "HQ")],
      Json.obj [("id", Json.str "2")]])) []
    [[("id", Json.str "1"), ("name", Json.str "HQ")], [("id", Json.str "2")]]
    (by decide) (by decide) rfl
  have h2 := c10_list_spaces ⟨"u", "k"⟩
    (fun _ => Except.ok (Json.arr [Json.obj [("name", Json.str "ghost")]])) []
    [[("name", Json.str "ghost")]]
    (by decide) (by decide) rfl
  refine ⟨h1.1 (by decide), ?_⟩
  obtain ⟨m, _, hcall⟩ := h2.2 ⟨[("name", Json.str "ghost")], by simp, rfl⟩
  exact ⟨m, hcall⟩

/-- The recursive channel extraction, run on the rendering of any
    well-formed forest, produces the accumulator followed by the
    depth-first news entries of the forest. -/
theorem extract_channels_spec : ∀ (n : Nat) (ts : List CNode), sizeOf ts ≤ n →
    CNode.wfbList ts = true → ∀ acc : List Json,
    extract_channels (CNode.listToJson ts) acc = Except.ok (acc ++ newsEntriesList ts) := by
  intro n
  induction n with
  | zero =>
    intro ts hs
    cases ts <;> simp at hs
  | succ n ih =>
    intro ts hs hwf acc
    cases ts with
    | nil => simp [CNode.listToJson, extract_channels, newsEntriesList]
    | cons t rest =>
      obtain ⟨f, cs⟩ := t
      simp only [CNode.wfbList, CNode.wfb, Bool.and_eq_true, Bool.or_eq_true,
        Bool.not_eq_true'] at hwf
      obtain ⟨⟨⟨hnochild, hB⟩, hcs⟩, hrest⟩ := hwf
      have hsz : sizeOf cs ≤ n ∧ sizeOf rest ≤ n := by
        simp at hs
        omega
      have hlook : lookupField (f ++ [("children", Json.arr (CNode.listToJson cs))]) "children"
          = some (Json.arr (CNode.listToJson cs)) :=
        lookupField_append_found "children" (Json.arr (CNode.listToJson cs)) f
          (Option.isNone_iff_eq_none.mp hnochild)
      simp only [CNode.listToJson, CNode.toJson]
      simp only [extract_channels, isNewsType_append, channelEntry_append]
      cases hn : isNewsType f with
      | false =>
        simp only [hn, Bool.false_eq_true, if_false, bindE_ok]
        split
        · rename_i cs1 heq
          rw [hlook] at heq
          simp only [Option.some.injEq, Json.arr.injEq] at heq
          subst heq
          cases cs with
          | nil =>
            simp only [CNode.listToJson, List.isEmpty_nil, if_true]
            rw [ih rest hsz.2 hrest acc]
            simp [newsEntriesList, newsEntries, hn]
          | cons c cs0 =>
            have hne : (CNode.listToJson (c :: cs0)).isEmpty = false := by
              simp [CNode.listToJson]
            rw [hne]
            simp only [Bool.false_eq_true, if_false]
            rw [ih (c :: cs0) hsz.1 hcs acc, bindE_ok, ih rest hsz.2 hrest]
            simp [newsEntriesList, newsEntries, hn, List.append_assoc]
        · rename_i other hno heq
          rw [hlook] at heq
          exact ((hno (CNode.listToJson cs) (Option.some.inj heq).symm)).elim
        · rename_i heq
          rw [hlook] at heq
          simp at heq
      | true =>
        have hsome : (channelEntry f).toOption.isSome = true := by
          rcases hB with h | h
          · rw [hn] at h
            cases h
          · exact h
        obtain ⟨e, he⟩ := (exceptToOption_isSome (channelEntry f)).mp hsome
        simp only [hn, eq_self_iff_true, if_true, he, mapEx_ok, bindE_ok]
        split
        · rename_i cs1 heq
          rw [hlook] at heq
          simp only [Option.some.injEq, Json.arr.injEq] at heq
          subst heq
          cases cs with
          | nil =>
            simp only [CNode.listToJson, List.isEmpty_nil, if_true]
            rw [ih rest hsz.2 hrest (acc ++ [e])]
            simp [newsEntriesList, newsEntries, hn, he]
          | cons c cs0 =>
            have hne : (CNode.listToJson (c :: cs0)).isEmpty = false := by
              simp [CNode.listToJson]
            rw [hne]
            simp only [Bool.false_eq_true, if_false]
            rw [ih (c :: cs0) hsz.1 hcs (acc ++ [e]), bindE_ok, ih rest hsz.2 hrest]
            simp [newsEntriesList, newsEntries, hn, he, List.append_assoc]
        · rename_i other hno heq
          rw [hlook] at heq
          exact ((hno (CNode.listToJson cs) (Option.some.inj heq).symm)).elim
        · rename_i heq
          rw [hlook] at heq
          simp at heq

/-- C2: on any finite well-formed channel tree, list_channels returns
    exactly one entry per news-typed node across all depths, in
    depth-first order with a node's own entry preceding those collected
    from its children; a news node with children contributes its entry
    once and then its children are processed independently (this is
    what newsEntriesList states, written from the spec). -/
theorem c2_list_channels (cfg : Config) (up : Upstream) (sid : Json)
    (arguments : List (String × Json)) (ts : List CNode)
    (hb : cfg.base_url ≠ "") (hk : cfg.api_key ≠ "")
    (hsid : lookupField arguments "space_id" = some sid)
    (hup : up (UpCall.spaceNews sid) = Except.ok (Json.arr (CNode.listToJson ts)))
    (hwf : CNode.wfbList ts = true) :
    handle_tool cfg up "list_channels" arguments =
      (Except.ok (Json.arr (newsEntriesList ts)), [UpCall.spaceNews sid]) := by
  have hc : get_client cfg = Except.ok () := by
    unfold get_client
    rw [if_neg]
    push_neg
    exact ⟨hb, hk⟩
  have hextract := extract_channels_spec (sizeOf ts) ts le_rfl hwf []
  simp only [List.nil_append] at hextract
  simp [handle_tool, hc, hsid, StaffbaseClient.get_space_news, hup, mapEx_ok,
    unwrapData, list_channels_result, hextract]

/-- Witness for C2 at a concrete three-level tree whose root is a news
    node that itself has a folder child containing a further news node:
    both news nodes appear exactly once, root first. -/
theorem c2_witness :
    handle_tool ⟨"u", "k"⟩
      (fun _ => Except.ok (Json.arr (CNode.listToJson
        [CNode.mk [("type", Json.str "news"), ("id", Json.str "a")]
          [CNode.mk [("type", Json.str "folder")]
            [CNode.mk [("type", Json.str "news"), ("installationID", Json.str "b")] []]]])))
      "list_channels" [("space_id", Json.str "s")] =
      (Except.ok (Json.arr [
        Json.obj [("name", Json.str ""), ("installation_id", Json.str "a")],
        Json.obj [("name", Json.str ""), ("installation_id", Json.str "b")]]),
       [UpCall.spaceNews (Json.str "s")]) := by
  have h := c2_list_channels ⟨"u", "k"⟩
    (fun _ => Except.ok (Json.arr (CNode.listToJson
      [CNode.mk [("type", Json.str "news"), ("id", Json.str "a")]
        [CNode.mk [("type", Json.str "folder")]
          [CNode.mk [("type", Json.str "news"), ("installationID", Json.str "b")] []]]])))
    (Json.str "s") [("space_id", Json.str "s")]
    [CNode.mk [("type", Json.str "news"), ("id", Json.str "a")]
      [CNode.mk [("type", Json.str "folder")]
        [CNode.mk [("type", Json.str "news"), ("installationID", Json.str "b")] []]]]
    (by decide) (by decide) rfl rfl (by decide)
  rw [h]
  rfl
